import Mathlib

/-!
Verification of the `HeroSection` component
(`src/frontend/src/components/home/HeroSection.jsx`).

The component keeps three pieces of local UI state (`statistics`,
`loading`, `error`), fetches a statistics object when no pre-fetched one
was supplied, and renders one of a loading placeholder, an error panel
with a retry button, or a success view with three counters and up to
three preview cards (or a fallback link when no preview dogs are given).

We embed the component as a small state machine: `HeroState` is the
triple of React state variables, `fetchStatistics` is split into its
synchronous prefix (`fetchStart`, the `setLoading(true); setError(null)`
before the `await`) and its settlement (`fetchSettle`, the
`try`/`catch`/`finally` continuation), and `render` mirrors the guarded
conditionals of the JSX.  A `Reachable` relation captures which states
the component can actually be in: mounting, an in-flight fetch settling,
and the user pressing the retry button (available exactly when the error
panel is rendered).
-/

/-- The statistics object returned by `getStatistics`:
`total_dogs`, `total_organizations` and an array `countries`
(of which only the length is displayed). -/
structure Statistics where
  total_dogs : Int
  total_organizations : Int
  countries : List String
deriving Repr, DecidableEq

/-- A preview dog record: the component reads `dog.id` for the list key
and forwards the whole record to `HeroDogPreviewCard`. -/
structure Dog where
  id : Nat
  name : String
deriving Repr, DecidableEq

/-- The three `useState` variables of `HeroSection`. -/
structure HeroState where
  statistics : Option Statistics
  loading : Bool
  error : Option String
deriving Repr, DecidableEq

/-- The fixed user-facing message set in the `catch` branch. -/
def userErrorMessage : String := "Unable to load statistics. Please try again later."

/-- The fixed label passed to `reportError` in the `catch` branch. -/
def errorLogLabel : String := "Error fetching statistics"

/-- Default value of the `previewDogs` prop (`previewDogs = []`). -/
def previewDogsDefault : List Dog := []

/-- The initial React state:
`useState(initialStatistics)`, `useState(!initialStatistics)`,
`useState(null)`.  A non-null object is truthy in JS, so
`!initialStatistics` is `initialStatistics.isNone`. -/
def initState (initialStatistics : Option Statistics) : HeroState :=
  { statistics := initialStatistics
    loading := initialStatistics.isNone
    error := none }

/-- One call to the external logger `reportError(label, { error: msg })`. -/
structure LogCall where
  label : String
  errorMessage : String
deriving Repr, DecidableEq

/-- Outcome of the awaited `getStatistics()` call: a statistics object,
or a thrown/rejected error carrying its `message`. -/
inductive FetchResult where
  | success (stats : Statistics)
  | failure (message : String)
deriving Repr, DecidableEq

/-- The individual state-setter / collaborator calls performed by
`fetchStatistics`, in program order. -/
inductive UIAction where
  | callReportError (label : String) (errorMessage : String)
  | doSetError (e : Option String)
  | doSetStatistics (stats : Statistics)
  | doSetLoading (b : Bool)
deriving Repr, DecidableEq

/-- Effect of one action on the component state (a `reportError` call
does not touch the state). -/
def applyAction (s : HeroState) : UIAction → HeroState
  | .callReportError _ _ => s
  | .doSetError e => { s with error := e }
  | .doSetStatistics stats => { s with statistics := some stats }
  | .doSetLoading b => { s with loading := b }

/-- The synchronous prefix of `fetchStatistics`, before the `await`:
`setLoading(true); setError(null)`. -/
def startActions : List UIAction :=
  [.doSetLoading true, .doSetError none]

/-- The continuation of `fetchStatistics` after the `await` settles.
On success: `setStatistics(stats)` then the `finally` `setLoading(false)`.
On failure: `reportError("Error fetching statistics", { error: err.message })`,
`setError(fixed message)`, then the `finally` `setLoading(false)`. -/
def settleActions : FetchResult → List UIAction
  | .success stats => [.doSetStatistics stats, .doSetLoading false]
  | .failure msg =>
      [.callReportError errorLogLabel msg,
       .doSetError (some userErrorMessage),
       .doSetLoading false]

/-- State after the synchronous prefix of `fetchStatistics`. -/
def fetchStart (s : HeroState) : HeroState :=
  startActions.foldl applyAction s

/-- State after the fetch settles, paired with the `reportError` call
made (if any). -/
def fetchSettle (s : HeroState) (r : FetchResult) : HeroState × Option LogCall :=
  ((settleActions r).foldl applyAction s,
   match r with
   | .success _ => none
   | .failure msg => some { label := errorLogLabel, errorMessage := msg })

theorem fetchStart_eq (s : HeroState) :
    fetchStart s = { s with loading := true, error := none } := rfl

theorem fetchSettle_success (s : HeroState) (stats : Statistics) :
    fetchSettle s (.success stats) =
      ({ s with statistics := some stats, loading := false }, none) := rfl

theorem fetchSettle_failure (s : HeroState) (msg : String) :
    fetchSettle s (.failure msg) =
      ({ s with error := some userErrorMessage, loading := false },
       some { label := errorLogLabel, errorMessage := msg }) := rfl

/-- The component together with its environment: the React state, whether
a `getStatistics()` request is in flight, how many requests have been
issued, and the accumulated `reportError` calls. -/
structure SysState where
  hero : HeroState
  inFlight : Bool
  fetchCount : Nat
  log : List LogCall
deriving Repr, DecidableEq

/-- Mounting the component: the `useState` initialisers run, then the
`useEffect` runs `fetchStatistics()` iff `!initialStatistics`. -/
def mount (initialStatistics : Option Statistics) : SysState :=
  let s0 := initState initialStatistics
  if initialStatistics.isSome then
    { hero := s0, inFlight := false, fetchCount := 0, log := [] }
  else
    { hero := fetchStart s0, inFlight := true, fetchCount := 1, log := [] }

/-- The in-flight request settles with result `r`. -/
def settleStep (s : SysState) (r : FetchResult) : SysState :=
  { hero := (fetchSettle s.hero r).1
    inFlight := false
    fetchCount := s.fetchCount
    log := s.log ++ (fetchSettle s.hero r).2.toList }

/-- The user presses the `Try again` button: `fetchStatistics()` runs its
synchronous prefix and a new request goes out. -/
def retryStep (s : SysState) : SysState :=
  { hero := fetchStart s.hero
    inFlight := true
    fetchCount := s.fetchCount + 1
    log := s.log }

/-- JS truthiness of the `error` state (`null` and `""` are falsy). -/
def errTruthy : Option String → Bool
  | some m => !m.isEmpty
  | none => false

/-- One rendered `HeroDogPreviewCard`: its React `key`, the forwarded
`dog` record, its `index` prop and its `priority` prop. -/
structure PreviewCard where
  key : Nat
  dog : Dog
  index : Nat
  priority : Bool
deriving Repr, DecidableEq

/-- One rendered `AnimatedCounter` (its `value` and `label` props). -/
structure Counter where
  value : Int
  label : String
deriving Repr, DecidableEq

/-- The success panel: three counters plus either preview cards or the
fallback `Browse all dogs` link. -/
structure SuccessView where
  counters : List Counter
  previewCards : List PreviewCard
  fallbackLink : Option String
deriving Repr, DecidableEq

/-- The error panel: the displayed message and its retry button. -/
structure ErrorPanel where
  message : String
  retryControl : Bool
deriving Repr, DecidableEq

/-- What the right column of the hero section renders: any of the
loading placeholder, the error panel and the success view (the JSX uses
three independent guarded conditionals, not an if/else chain). -/
structure RightColumn where
  loadingPlaceholder : Bool
  errorPanel : Option ErrorPanel
  successView : Option SuccessView
deriving Repr, DecidableEq

/-- `previewDogs.slice(0, 3).map((dog, index) => <HeroDogPreviewCard
key={dog.id} dog={dog} index={index} priority={index === 0} />)`. -/
def renderPreviewCards (previewDogs : List Dog) : List PreviewCard :=
  ((previewDogs.take 3).enum).map fun p =>
    { key := p.2.id, dog := p.2, index := p.1, priority := p.1 == 0 }

/-- The `previewDogs.length > 0 ? (cards) : (link to /gallery)` ternary. -/
def renderPreviewArea (previewDogs : List Dog) : List PreviewCard × Option String :=
  if previewDogs.length > 0 then (renderPreviewCards previewDogs, none)
  else ([], some "/gallery")

/-- The success panel's content for a (non-null) statistics object:
the three `AnimatedCounter`s and the preview area. -/
def renderSuccess (previewDogs : List Dog) (stats : Statistics) : SuccessView :=
  { counters :=
      [{ value := stats.total_dogs, label := "Dogs need homes" },
       { value := stats.total_organizations, label := "Rescue Organizations" },
       { value := (stats.countries.length : Int), label := "Countries" }]
    previewCards := (renderPreviewArea previewDogs).1
    fallbackLink := (renderPreviewArea previewDogs).2 }

/-- The right column's guarded conditionals:
`{loading && placeholder}`, `{error && panel}`,
`{statistics && !loading && !error && success}`. -/
def render (previewDogs : List Dog) (s : HeroState) : RightColumn :=
  { loadingPlaceholder := s.loading
    errorPanel :=
      match s.error with
      | some m => if !m.isEmpty then some { message := m, retryControl := true } else none
      | none => none
    successView :=
      match s.statistics with
      | some stats =>
          if !s.loading && !(errTruthy s.error) then
            some (renderSuccess previewDogs stats)
          else none
      | none => none }

/-- `render` with the null-dereference made explicit: the success branch
reads `statistics.total_dogs`, `statistics.total_organizations` and
`statistics.countries.length`, which returns `none` (a crash) if the
guard let a null `statistics` through. -/
def renderChecked (previewDogs : List Dog) (s : HeroState) : Option RightColumn :=
  let errPanel : Option ErrorPanel :=
    match s.error with
    | some m => if !m.isEmpty then some { message := m, retryControl := true } else none
    | none => none
  if s.statistics.isSome && !s.loading && !(errTruthy s.error) then
    match s.statistics with
    | some stats =>
        some { loadingPlaceholder := s.loading
               errorPanel := errPanel
               successView := some (renderSuccess previewDogs stats) }
    | none => none
  else
    some { loadingPlaceholder := s.loading
           errorPanel := errPanel
           successView := none }

/-- How many of the three mutually guarded panels are rendered. -/
def panelCount (c : RightColumn) : Nat :=
  (if c.loadingPlaceholder then 1 else 0) +
  (if c.errorPanel.isSome then 1 else 0) +
  (if c.successView.isSome then 1 else 0)

/-- States the component can actually be in, starting from a mount with
the given `initialStatistics` prop: the in-flight request may settle, and
the retry button may be pressed exactly when the error panel is rendered
(`error` truthy). -/
inductive Reachable (init : Option Statistics) : SysState → Prop where
  | mounted : Reachable init (mount init)
  | settle {s : SysState} (r : FetchResult) :
      Reachable init s → s.inFlight = true → Reachable init (settleStep s r)
  | retry {s : SysState} :
      Reachable init s → errTruthy s.hero.error = true → Reachable init (retryStep s)

/-- Invariant of reachable states: a request is in flight exactly while
`loading` is set, `loading` excludes a pending error, the error message
is either absent or the fixed one, and a settled error-free state has a
statistics object. -/
def SysInv (s : SysState) : Prop :=
  s.inFlight = s.hero.loading ∧
  (s.hero.loading = true → s.hero.error = none) ∧
  (s.hero.error = none ∨ s.hero.error = some userErrorMessage) ∧
  (s.hero.loading = false → s.hero.error = none → s.hero.statistics ≠ none)

theorem inv_reachable {init : Option Statistics} {s : SysState}
    (h : Reachable init s) : SysInv s := by
  induction h with
  | mounted =>
      cases init with
      | none => simp [SysInv, mount, initState, fetchStart_eq]
      | some stats => simp [SysInv, mount, initState]
  | settle r hr hin ih =>
      obtain ⟨h1, h2, _h3, _h4⟩ := ih
      have hload : _ = true := h1 ▸ hin
      have herr := h2 hload
      cases r with
      | success stats =>
          simp [SysInv, settleStep, fetchSettle_success, herr]
      | failure msg =>
          simp [SysInv, settleStep, fetchSettle_failure]
  | retry hr herr ih =>
      simp [SysInv, retryStep, fetchStart_eq]

theorem userErrorMessage_nonempty : userErrorMessage.isEmpty = false := by decide

theorem inv_panelCount (previewDogs : List Dog) (s : SysState) (h : SysInv s) :
    panelCount (render previewDogs s.hero) = 1 := by
  obtain ⟨_h1, h2, h3, h4⟩ := h
  by_cases hl : s.hero.loading
  · have herr := h2 hl
    simp [panelCount, render, hl, herr, errTruthy]
    cases s.hero.statistics <;> rfl
  · rcases h3 with herr | herr
    · have hst := h4 (by simp [hl]) herr
      obtain ⟨stats, hstats⟩ := Option.ne_none_iff_exists'.mp hst
      simp [panelCount, render, hl, herr, hstats, errTruthy]
    · simp [panelCount, render, hl, herr, errTruthy, userErrorMessage_nonempty]
      cases s.hero.statistics <;> rfl

/-- C1: For every error thrown/rejected by the statistics fetch, the
component catches it, sets the user-facing error message to exactly
"Unable to load statistics. Please try again later." (regardless of the
error's kind or content), invokes the external error reporter with a
fixed log label and the raw error message, and then sets loading to
false (the `settleActions` equation exhibits the order of the calls). -/
theorem c1_catch_sets_fixed_message_logs_and_stops_loading
    (s : HeroState) (m : String) :
    (fetchSettle s (.failure m)).1.error = some userErrorMessage ∧
    userErrorMessage = "Unable to load statistics. Please try again later." ∧
    (fetchSettle s (.failure m)).2 = some { label := errorLogLabel, errorMessage := m } ∧
    errorLogLabel = "Error fetching statistics" ∧
    (fetchSettle s (.failure m)).1.loading = false ∧
    settleActions (.failure m) =
      [.callReportError errorLogLabel m,
       .doSetError (some userErrorMessage),
       .doSetLoading false] :=
  ⟨rfl, rfl, rfl, rfl, rfl, rfl⟩

/-- C2: For every non-null `initialStatistics` prop, the component never
issues the statistics network request (every reachable state is the
mount state, with zero requests issued), its initial loading state is
false, and the success view renders immediately with `initialStatistics`
as the stored statistics. -/
theorem c2_initial_statistics_skips_fetch (stats : Statistics) (s : SysState)
    (h : Reachable (some stats) s) :
    s = mount (some stats) ∧
    s.fetchCount = 0 ∧
    s.hero.loading = false ∧
    s.hero.statistics = some stats ∧
    ∀ previewDogs : List Dog,
      (render previewDogs s.hero).successView = some (renderSuccess previewDogs stats) := by
  have hs : s = mount (some stats) := by
    induction h with
    | mounted => rfl
    | settle r hr hin ih =>
        rw [ih] at hin
        simp [mount, initState] at hin
    | retry hr herr ih =>
        rw [ih] at herr
        simp [mount, initState, errTruthy] at herr
  subst hs
  refine ⟨rfl, rfl, rfl, rfl, fun previewDogs => ?_⟩
  simp [render, mount, initState, errTruthy]

/-- A concrete statistics object used to instantiate theorems with
reachability hypotheses. -/
def sampleStats : Statistics :=
  { total_dogs := 412, total_organizations := 13, countries := ["CA", "US"] }

theorem c2_initial_statistics_skips_fetch_witness :
    (mount (some sampleStats)).fetchCount = 0 ∧
    (mount (some sampleStats)).hero.loading = false ∧
    (render [] (mount (some sampleStats)).hero).successView =
      some (renderSuccess [] sampleStats) :=
  have h := c2_initial_statistics_skips_fetch sampleStats
    (mount (some sampleStats)) Reachable.mounted
  ⟨h.2.1, h.2.2.1, h.2.2.2.2 []⟩

/-- C3: For every `previewDogs` list with more than three entries,
exactly the first three entries are rendered as preview cards, in the
list's original order; each rendered card receives its position index
and the item's id as its list key, and only the card at index 0 receives
`priority = true`. -/
theorem c3_preview_renders_first_three (a b c d : Dog) (rest : List Dog) :
    renderPreviewArea (a :: b :: c :: d :: rest) =
      ([{ key := a.id, dog := a, index := 0, priority := true },
        { key := b.id, dog := b, index := 1, priority := false },
        { key := c.id, dog := c, index := 2, priority := false }], none) :=
  rfl

/-- C4: For every empty `previewDogs` list (including the default when
the prop is omitted), no preview card is rendered and a fallback link to
the dogs listing page (`/gallery`) renders in its place. -/
theorem c4_empty_preview_renders_gallery_link :
    renderPreviewArea previewDogsDefault = ([], some "/gallery") ∧
    previewDogsDefault = [] ∧
    ∀ stats : Statistics,
      (renderSuccess previewDogsDefault stats).previewCards = [] ∧
      (renderSuccess previewDogsDefault stats).fallbackLink = some "/gallery" :=
  ⟨rfl, rfl, fun _ => ⟨rfl, rfl⟩⟩

/-- C5: For every stored statistics object, the success view's three
counters display exactly `statistics.total_dogs`,
`statistics.total_organizations`, and the length of
`statistics.countries` (the count of the countries array, not its
contents). -/
theorem c5_counters_show_totals_and_country_count
    (stats : Statistics) (previewDogs : List Dog) :
    (renderSuccess previewDogs stats).counters.map Counter.value =
      [stats.total_dogs, stats.total_organizations, (stats.countries.length : Int)] ∧
    (renderSuccess previewDogs stats).counters.map Counter.label =
      ["Dogs need homes", "Rescue Organizations", "Countries"] ∧
    (render previewDogs
        { statistics := some stats, loading := false, error := none }).successView =
      some (renderSuccess previewDogs stats) :=
  ⟨rfl, rfl, rfl⟩

/-- C6: For every mount with `initialStatistics` absent (null), the
component's first rendered state is the loading placeholder (loading
initialized to true and the fetch started on mount), and once the single
request settles the state transitions to exactly one of success
(statistics stored, loading false) or failure (error message set,
loading false). -/
theorem c6_mount_without_initial_loads_then_settles
    (previewDogs : List Dog) (r : FetchResult) :
    (mount none).hero = { statistics := none, loading := true, error := none } ∧
    render previewDogs (mount none).hero =
      { loadingPlaceholder := true, errorPanel := none, successView := none } ∧
    (mount none).inFlight = true ∧
    (mount none).fetchCount = 1 ∧
    (match r with
     | .success stats =>
         (settleStep (mount none) r).hero =
           { statistics := some stats, loading := false, error := none }
     | .failure _ =>
         (settleStep (mount none) r).hero =
           { statistics := none, loading := false,
             error := some userErrorMessage }) ∧
    (settleStep (mount none) r).inFlight = false := by
  refine ⟨rfl, rfl, rfl, rfl, ?_, ?_⟩
  · cases r with
    | success stats => rfl
    | failure msg => rfl
  · rfl

/-- C7: In the FAILURE state, the error panel shows the fixed message
together with a retry control, and triggering the retry control
re-invokes the statistics request (one more request issued, a new
request in flight), re-entering the LOADING state (loading set to true
and the error message cleared to null). -/
theorem c7_error_panel_and_retry (init : Option Statistics)
    (previewDogs : List Dog) (s : SysState)
    (h : Reachable init s) (herr : errTruthy s.hero.error = true) :
    (render previewDogs s.hero).errorPanel =
      some { message := userErrorMessage, retryControl := true } ∧
    (retryStep s).hero.loading = true ∧
    (retryStep s).hero.error = none ∧
    (retryStep s).fetchCount = s.fetchCount + 1 ∧
    (retryStep s).inFlight = true ∧
    Reachable init (retryStep s) := by
  obtain ⟨_, _, h3, _⟩ := inv_reachable h
  have hmsg : s.hero.error = some userErrorMessage := by
    rcases h3 with he | he
    · rw [he] at herr
      simp [errTruthy] at herr
    · exact he
  refine ⟨?_, rfl, rfl, rfl, rfl, Reachable.retry h herr⟩
  simp [render, hmsg, userErrorMessage_nonempty]

/-- A concrete reachable FAILURE state: mounted without pre-fetched
statistics, then the request rejected. -/
def failedState : SysState := settleStep (mount none) (.failure "Network request failed")

theorem c7_error_panel_and_retry_witness :
    (render [] failedState.hero).errorPanel =
      some { message := userErrorMessage, retryControl := true } ∧
    (retryStep failedState).hero.loading = true ∧
    (retryStep failedState).hero.error = none ∧
    (retryStep failedState).fetchCount = failedState.fetchCount + 1 ∧
    (retryStep failedState).inFlight = true ∧
    Reachable none (retryStep failedState) :=
  c7_error_panel_and_retry none [] failedState
    (Reachable.settle (.failure "Network request failed") Reachable.mounted rfl)
    (by decide)

/-- C8: In every reachable state, exactly one of the loading
placeholder, the error panel, and the success panel is rendered (in
particular this holds after every fetch completion), and whenever the
error message is set — even with a statistics object simultaneously
stored — the error display takes precedence over the success display. -/
theorem c8_one_panel_and_error_precedence (init : Option Statistics)
    (previewDogs : List Dog) (s : SysState) (h : Reachable init s) :
    panelCount (render previewDogs s.hero) = 1 ∧
    (s.hero.error ≠ none →
      (render previewDogs s.hero).errorPanel ≠ none ∧
      (render previewDogs s.hero).successView = none) := by
  have hinv := inv_reachable h
  refine ⟨inv_panelCount previewDogs s hinv, fun hne => ?_⟩
  obtain ⟨_, _, h3, _⟩ := hinv
  have hmsg : s.hero.error = some userErrorMessage := by
    rcases h3 with he | he
    · exact absurd he hne
    · exact he
  constructor
  · simp [render, hmsg, userErrorMessage_nonempty]
  · simp [render, hmsg, errTruthy, userErrorMessage_nonempty]
    cases s.hero.statistics <;> rfl

theorem c8_one_panel_and_error_precedence_witness :
    panelCount (render [] failedState.hero) = 1 ∧
    (failedState.hero.error ≠ none →
      (render [] failedState.hero).errorPanel ≠ none ∧
      (render [] failedState.hero).successView = none) :=
  c8_one_panel_and_error_precedence none [] failedState
    (Reachable.settle (.failure "Network request failed") Reachable.mounted rfl)

/-- C9: On every fetch failure, the stored statistics state is left
unchanged: the catch branch sets only the error message and never clears
or replaces statistics; in particular a statistics object present before
a failed retry persists after it. -/
theorem c9_failure_preserves_statistics (s : HeroState) (m : String) (sys : SysState) :
    (fetchSettle s (.failure m)).1.statistics = s.statistics ∧
    (fetchSettle (fetchStart s) (.failure m)).1.statistics = s.statistics ∧
    (settleStep sys (.failure m)).hero.statistics = sys.hero.statistics ∧
    (settleStep (retryStep sys) (.failure m)).hero.statistics = sys.hero.statistics :=
  ⟨rfl, rfl, rfl, rfl⟩

/-- C10: Rendering never dereferences a field of a null statistics
value: the checked renderer — which returns `none` exactly when the
success branch would read `total_dogs` / `total_organizations` /
`countries.length` off a null `statistics` — succeeds on every state and
agrees with `render`. -/
theorem c10_no_null_dereference (previewDogs : List Dog) (s : HeroState) :
    renderChecked previewDogs s = some (render previewDogs s) := by
  rcases s with ⟨stat, load, err⟩
  cases stat <;> cases load <;> cases err <;> try rfl
  all_goals rename_i m
  all_goals cases hm : m.isEmpty <;> simp [renderChecked, render, errTruthy, hm]
